import Mathlib

/-!
Shallow embedding of the chat relay server in `src/main.py`: the address
validator `validate_wallet`, the event handlers `login`, `send_message` and
`fetch_messages`, and the persistence operations they perform inline against
the relational store (`users(wallet)`, `messages(id SERIAL, sender_wallet,
content, created_at)`).

Modelling conventions:
* Python strings are Lean `String`s; `len` is `String.length` (both count
  code points), `str.strip()` is `pyStrip` over the six Python ASCII
  whitespace characters, and `int(x)` is `pyInt` over a small value type.
* The durable store is `DB`: a set of user wallets, the list of committed
  message rows in insertion order, the `SERIAL` counter `nextId`, and the
  store clock `clock` from which the store assigns `created_at` at insert
  time (the `messages.created_at` column default).  Timestamps are `Nat`
  clock readings; `isoformat` is injective on them, so payloads carry the
  reading itself.
* Store-connectivity failures are injected by an oracle: `StoreFail` names
  the point of `send_message`'s inline insert sequence at which the store
  raises, `none` of them meaning the operation succeeds.  A failed commit
  rolls the uncommitted statements back; statements already committed stay
  durable.
* The wall clock the handler reads with `datetime.utcnow()` when it builds
  the broadcast payload is a separate clock from the store's, so the
  handler takes its reading `tEmit` as a parameter.
* An outbound event is an `Emit`: the event name, the payload, and the
  Socket.IO target (`to=sid` or `skip_sid=sid`).  `deliver` spells out which
  connected sessions a single emission reaches.
-/

namespace Chat2

/-- The base-58 alphabet from `main.py` line 60: the string literal
`'123456789ABCDEFGHJKLMNPQRSTUVWXYZabcdefghijkmnopqrstuvwxyz'`. -/
def valid_chars : List Char :=
  "123456789ABCDEFGHJKLMNPQRSTUVWXYZabcdefghijkmnopqrstuvwxyz".toList

/-- The validator `validate_wallet` (`main.py` lines 54-61): reject falsy input and length
outside [32, 44], then require every character to be in `valid_chars`. -/
def validate_wallet (wallet : String) : Bool :=
  if wallet.length == 0 || wallet.length < 32 || wallet.length > 44 then false
  else wallet.toList.all (fun c => valid_chars.contains c)

/-- The sixty-two ASCII alphanumeric characters, for stating what
`valid_chars` excludes. -/
def asciiAlphanumeric : List Char :=
  "0123456789ABCDEFGHIJKLMNOPQRSTUVWXYZabcdefghijklmnopqrstuvwxyz".toList

/-- Python `str.isspace` on the ASCII whitespace characters recognised by
`str.strip()`. -/
def pyIsSpace (c : Char) : Bool :=
  c == ' ' || c == '\t' || c == '\n' || c == '\r' || c == '\x0b' || c == '\x0c'

/-- Python `s.strip()`: drop whitespace from both ends. -/
def pyStrip (s : String) : String :=
  String.mk (((s.toList.dropWhile pyIsSpace).reverse.dropWhile pyIsSpace).reverse)

/-- A Python value that can appear under the `limit` key of a
`fetch_messages` payload. -/
inductive PyVal where
  | vNone
  | vInt (n : Int)
  | vBool (b : Bool)
  | vStr (s : String)
deriving DecidableEq, Repr

/-- Python `int(s)` on a string: optional surrounding whitespace, an optional
sign, then a non-empty run of decimal digits; anything else raises. -/
def pyIntOfStr (s : String) : Except Unit Int :=
  let t := (pyStrip s).toList
  let signed : Int × List Char :=
    match t with
    | '-' :: rest => (-1, rest)
    | '+' :: rest => (1, rest)
    | _ => (1, t)
  if signed.2 ≠ [] ∧ signed.2.all Char.isDigit then
    Except.ok (signed.1 * ((signed.2.foldl (fun acc d => acc * 10 + (d.toNat - 48)) 0 : Nat) : Int))
  else Except.error ()

/-- Python `int(x)`: identity on integers, `True`/`False` become 1/0, strings
are parsed, `None` (and anything non-numeric) raises `TypeError`. -/
def pyInt : PyVal → Except Unit Int
  | PyVal.vNone => Except.error ()
  | PyVal.vInt n => Except.ok n
  | PyVal.vBool b => Except.ok (if b then 1 else 0)
  | PyVal.vStr s => pyIntOfStr s

/-- A committed row of the `messages` table: `id`, `sender_wallet`,
`content`, and the store-assigned `created_at` timestamp. -/
structure Row where
  id : Nat
  sender : String
  content : String
  created_at : Nat
deriving DecidableEq, Repr

/-- The durable store: `users` table (wallets), `messages` table in insertion
order, the `SERIAL` id counter, and the store clock that stamps
`created_at`. -/
structure DB where
  users : List String
  messages : List Row
  nextId : Nat
  clock : Nat
deriving DecidableEq, Repr

/-- The upsert `INSERT INTO users (wallet) VALUES (%s) ON CONFLICT (wallet) DO NOTHING`. -/
def ensure_user (db : DB) (wallet : String) : DB :=
  if db.users.contains wallet then db
  else { db with users := db.users ++ [wallet] }

/-- Where `send_message`'s inline store sequence (`main.py` lines 113-125)
raises, if anywhere: acquiring the connection, the users insert, its commit,
the messages insert, or its commit. -/
inductive StoreFail where
  | connectFail
  | usersFail
  | commit1Fail
  | msgFail
  | commit2Fail
  | noFail
deriving DecidableEq, Repr

/-- The store sequence of `send_message` (`main.py` lines 113-125): ensure
the user and commit, then insert the message row (stamped with the store
clock) and commit, returning the new id.  On failure the statements of any
uncommitted transaction are rolled back, but the first commit, once done, is
durable.  `none` as the returned id means a StoreError was raised. -/
def insert_message (db : DB) (wallet content : String) (fp : StoreFail) :
    DB × Option Nat :=
  match fp with
  | StoreFail.connectFail => (db, none)
  | StoreFail.usersFail => (db, none)
  | StoreFail.commit1Fail => (db, none)
  | StoreFail.msgFail => (ensure_user db wallet, none)
  | StoreFail.commit2Fail =>
      let db1 := ensure_user db wallet
      ({ db1 with nextId := db1.nextId + 1 }, none)
  | StoreFail.noFail =>
      let db1 := ensure_user db wallet
      ({ db1 with
          messages := db1.messages ++ [⟨db1.nextId, wallet, content, db1.clock⟩],
          nextId := db1.nextId + 1,
          clock := db1.clock + 1 }, some db1.nextId)

/-- Insert a row into a list kept sorted by `created_at` descending. -/
def insertDesc (r : Row) : List Row → List Row
  | [] => [r]
  | x :: xs => if r.created_at ≤ x.created_at then x :: insertDesc r xs
               else r :: x :: xs

/-- The sort `ORDER BY m.created_at DESC` over the `messages` table. -/
def sortByCreatedDesc (l : List Row) : List Row :=
  l.foldr insertDesc []

/-- The `SELECT ... ORDER BY m.created_at DESC LIMIT %s` of `fetch_messages`
(`main.py` lines 150-158).  A negative `LIMIT` makes the store raise. -/
def fetch_recent (db : DB) (limit : Int) : Except Unit (List Row) :=
  if limit < 0 then Except.error ()
  else Except.ok ((sortByCreatedDesc db.messages).take limit.toNat)

/-- A Socket.IO emission target: `to=sid` or `skip_sid=sid`. -/
inductive Target where
  | one (sid : String)
  | allExcept (sid : String)
deriving DecidableEq, Repr

/-- An outbound payload: `error{message}`, `login_success{wallet}`,
`new_message{id, sender, content, created_at}`, or the `messages` list. -/
inductive Payload where
  | errorMsg (message : String)
  | loginSuccess (wallet : String)
  | newMessage (m : Row)
  | messages (rows : List Row)
deriving DecidableEq, Repr

/-- One `sio.emit(event, payload, ...)` call. -/
structure Emit where
  event : String
  payload : Payload
  target : Target
deriving DecidableEq, Repr

/-- The call `sio.emit("error", \x7b"message": msg\x7d, to=sid)`. -/
def errTo (sid msg : String) : Emit :=
  ⟨"error", Payload.errorMsg msg, Target.one sid⟩

/-- The `login` handler (`main.py` lines 74-93).  `wallet?` is
`data.get("wallet")`; `fail` injects a StoreError anywhere inside the store
block, which the `except` turns into the generic error event. -/
def login (db : DB) (sid : String) (wallet? : Option String) (fail : Bool) :
    DB × List Emit :=
  match wallet? with
  | none => (db, [errTo sid "Invalid wallet address"])
  | some wallet =>
      if wallet.length == 0 || !(validate_wallet wallet) then
        (db, [errTo sid "Invalid wallet address"])
      else if fail then
        (db, [errTo sid "Internal server error"])
      else
        (ensure_user db wallet, [⟨"login_success", Payload.loginSuccess wallet, Target.one sid⟩])

/-- The `send_message` handler (`main.py` lines 96-139): wallet validation,
the emptiness check on the stripped content, the raw-length check, then the
store sequence; on success the payload is built with `created_at` read from
the wall clock (`datetime.utcnow()`, the parameter `tEmit`) and emitted
first with `skip_sid=sid`, then with `to=sid`. -/
def send_message (db : DB) (sid : String) (wallet? content? : Option String)
    (fp : StoreFail) (tEmit : Nat) : DB × List Emit :=
  match wallet? with
  | none => (db, [errTo sid "Invalid wallet address"])
  | some wallet =>
      if wallet.length == 0 || !(validate_wallet wallet) then
        (db, [errTo sid "Invalid wallet address"])
      else
        match content? with
        | none => (db, [errTo sid "Message cannot be empty"])
        | some content =>
            if content.length == 0 || (pyStrip content).length == 0 then
              (db, [errTo sid "Message cannot be empty"])
            else if content.length > 1000 then
              (db, [errTo sid "Message too long"])
            else
              match insert_message db wallet content fp with
              | (db2, none) => (db2, [errTo sid "Internal server error"])
              | (db2, some mid) =>
                  let m : Row := ⟨mid, wallet, content, tEmit⟩
                  (db2, [⟨"new_message", Payload.newMessage m, Target.allExcept sid⟩,
                         ⟨"new_message", Payload.newMessage m, Target.one sid⟩])

/-- The `data` argument of `fetch_messages`: absent or not a dict, a dict
without the `limit` key, or a dict with `limit` bound to a value. -/
inductive FetchData where
  | noData
  | dictNoLimit
  | dictLimit (v : PyVal)
deriving DecidableEq, Repr

/-- The limit computation `limit = 50; if data and isinstance(data, dict): limit =
min(int(data.get("limit", 50)), 100)` (`main.py` lines 144-146). -/
def fetchLimit : FetchData → Except Unit Int
  | FetchData.noData => Except.ok 50
  | FetchData.dictNoLimit => (pyInt (PyVal.vInt 50)).map (fun n => min n 100)
  | FetchData.dictLimit v => (pyInt v).map (fun n => min n 100)

/-- The `fetch_messages` handler (`main.py` lines 142-171): compute the
limit (a coercion failure raises inside the `try` and yields the generic
error), query the store, and emit the rows, mapped to
`\x7bid, sender, content, created_at\x7d`, to the caller only.  `fail`
injects a store-connectivity failure. -/
def fetch_messages (db : DB) (sid : String) (data : FetchData) (fail : Bool) :
    List Emit :=
  match fetchLimit data with
  | Except.error _ => [errTo sid "Internal server error"]
  | Except.ok limit =>
      if fail then [errTo sid "Internal server error"]
      else
        match fetch_recent db limit with
        | Except.error _ => [errTo sid "Internal server error"]
        | Except.ok rows => [⟨"messages", Payload.messages rows, Target.one sid⟩]

/-- The sessions a single emission reaches, given the connected registry:
`to=sid` reaches that session, `skip_sid=sid` reaches every other one. -/
def deliver (registry : List String) (e : Emit) : List (String × String × Payload) :=
  match e.target with
  | Target.one s => if registry.contains s then [(s, e.event, e.payload)] else []
  | Target.allExcept s =>
      (registry.filter (fun x => x ≠ s)).map (fun x => (x, e.event, e.payload))

/-- The deliveries of a handler's emissions, in emission order. -/
def deliverAll (registry : List String) (es : List Emit) :
    List (String × String × Payload) :=
  (es.map (deliver registry)).flatten

/-- The server's in-memory session state: the database handle plus the live
session registry, each session with the wallet recorded by a successful
`login` (`none` when the session has never logged in). -/
structure Server where
  db : DB
  sessions : List (String × Option String)
deriving DecidableEq, Repr

/-- The handler `send_message` as dispatched for a session of the server: it
reads only `sid` and the event payload, never the session's login state. -/
def handle_send (srv : Server) (sid : String) (wallet? content? : Option String)
    (fp : StoreFail) (tEmit : Nat) : Server × List Emit :=
  let p := send_message srv.db sid wallet? content? fp tEmit
  ({ srv with db := p.1 }, p.2)

/-- A concrete valid wallet: thirty-two characters, all in the alphabet. -/
def w0 : String := "11111111111111111111111111111111"

/-- An empty store whose `SERIAL` counter starts at 1. -/
def db0 : DB := ⟨[], [], 1, 0⟩

/-- Newest first: each row's `created_at` is at least the next one's. -/
def newestFirst (a b : Row) : Prop := b.created_at ≤ a.created_at

/-- The store invariant the `SERIAL` column maintains: message ids strictly
increase along insertion order and stay below the counter. -/
def DBInv (db : DB) : Prop :=
  db.messages.Pairwise (fun a b => a.id < b.id) ∧ ∀ r ∈ db.messages, r.id < db.nextId

/-- The stores reachable from the empty store by the handlers that write:
`login` and `send_message` (with any failure injection).  `connect`,
`disconnect` and `fetch_messages` never touch the store. -/
inductive Reachable : DB → Prop where
  | init : Reachable db0
  | loginStep (db : DB) (sid : String) (w? : Option String) (f : Bool) :
      Reachable db → Reachable (login db sid w? f).1
  | sendStep (db : DB) (sid : String) (w? c? : Option String) (fp : StoreFail) (t : Nat) :
      Reachable db → Reachable (send_message db sid w? c? fp t).1

/-! Supporting lemmas -/

theorem mem_insertDesc (r a : Row) (l : List Row) :
    a ∈ insertDesc r l ↔ a = r ∨ a ∈ l := by
  induction l with
  | nil => simp [insertDesc]
  | cons x xs ih =>
      by_cases h : r.created_at ≤ x.created_at
      · simp [insertDesc, h, ih]
        tauto
      · simp [insertDesc, h]

theorem pairwise_insertDesc (r : Row) (l : List Row)
    (h : l.Pairwise newestFirst) : (insertDesc r l).Pairwise newestFirst := by
  induction l with
  | nil => simp [insertDesc]
  | cons x xs ih =>
      rcases List.pairwise_cons.mp h with ⟨hx, hxs⟩
      simp only [insertDesc]
      by_cases hc : r.created_at ≤ x.created_at
      · rw [if_pos hc]
        refine List.pairwise_cons.mpr ⟨?_, ih hxs⟩
        intro y hy
        rcases (mem_insertDesc r y xs).mp hy with rfl | hy'
        · exact hc
        · exact hx y hy'
      · rw [if_neg hc]
        refine List.pairwise_cons.mpr ⟨?_, h⟩
        intro y hy
        rcases List.mem_cons.mp hy with rfl | hy'
        · exact le_of_lt (lt_of_not_le hc)
        · exact le_trans (hx y hy') (le_of_lt (lt_of_not_le hc))

theorem mem_sortByCreatedDesc (a : Row) (l : List Row) :
    a ∈ sortByCreatedDesc l ↔ a ∈ l := by
  induction l with
  | nil => simp [sortByCreatedDesc]
  | cons x xs ih =>
      simp only [sortByCreatedDesc, List.foldr] at *
      rw [mem_insertDesc]
      simp [ih]

theorem sorted_sortByCreatedDesc (l : List Row) :
    (sortByCreatedDesc l).Pairwise newestFirst := by
  induction l with
  | nil => simp [sortByCreatedDesc]
  | cons x xs ih =>
      have := pairwise_insertDesc x (sortByCreatedDesc xs) ih
      simpa [sortByCreatedDesc] using this

theorem pyStrip_length_eq_zero_iff (s : String) :
    (pyStrip s).length = 0 ↔ ∀ c ∈ s.toList, pyIsSpace c = true := by
  have hlen : (pyStrip s).length =
      (((s.toList.dropWhile pyIsSpace).reverse.dropWhile pyIsSpace).reverse).length := rfl
  rw [hlen, List.length_eq_zero, List.reverse_eq_nil_iff, List.dropWhile_eq_nil_iff]
  simp only [List.mem_reverse]
  constructor
  · intro h c hc
    rw [← List.takeWhile_append_dropWhile pyIsSpace s.toList] at hc
    rcases List.mem_append.mp hc with hc' | hc'
    · exact List.mem_takeWhile_imp hc'
    · exact h c hc'
  · intro h c hc
    exact h c ((List.dropWhile_sublist pyIsSpace).subset hc)

theorem validate_wallet_iff (s : String) :
    validate_wallet s = true ↔
      32 ≤ s.length ∧ s.length ≤ 44 ∧ ∀ c ∈ s.toList, c ∈ valid_chars := by
  unfold validate_wallet
  split
  next h =>
    simp only [Bool.or_eq_true, beq_iff_eq, decide_eq_true_eq] at h
    constructor
    · intro hf; cases hf
    · rintro ⟨ha, hb, -⟩; omega
  next h =>
    simp only [Bool.or_eq_true, beq_iff_eq, decide_eq_true_eq] at h
    push_neg at h
    constructor
    · intro hall
      refine ⟨by omega, by omega, ?_⟩
      intro c hc
      have := (List.all_eq_true.mp hall) c hc
      simpa using this
    · rintro ⟨-, -, hmem⟩
      refine List.all_eq_true.mpr ?_
      intro c hc
      simpa using hmem c hc

theorem validate_wallet_length (s : String) (h : validate_wallet s = true) :
    32 ≤ s.length :=
  ((validate_wallet_iff s).mp h).1

theorem eq_of_mem_pairwise_id (l : List Row) (m q : Row)
    (hp : l.Pairwise (fun a b => a.id ≠ b.id)) (hm : m ∈ l) (hq : q ∈ l)
    (hid : q.id = m.id) : q = m := by
  induction l with
  | nil => cases hm
  | cons x xs ih =>
      rcases List.pairwise_cons.mp hp with ⟨hx, hxs⟩
      rcases List.mem_cons.mp hm with rfl | hm'
      · rcases List.mem_cons.mp hq with rfl | hq'
        · rfl
        · exact absurd hid.symm (hx q hq')
      · rcases List.mem_cons.mp hq with rfl | hq'
        · exact absurd hid (hx m hm')
        · exact ih hxs hm' hq'

theorem ensure_user_users_mem (db : DB) (w : String) :
    w ∈ (ensure_user db w).users := by
  unfold ensure_user
  split
  next h => simpa using h
  next h => simp

theorem ensure_user_messages (db : DB) (w : String) :
    (ensure_user db w).messages = db.messages := by
  unfold ensure_user; split <;> rfl

theorem ensure_user_nextId (db : DB) (w : String) :
    (ensure_user db w).nextId = db.nextId := by
  unfold ensure_user; split <;> rfl

theorem ensure_user_clock (db : DB) (w : String) :
    (ensure_user db w).clock = db.clock := by
  unfold ensure_user; split <;> rfl

theorem DBInv_db0 : DBInv db0 := by
  constructor <;> simp [db0]

theorem DBInv_ensure_user (db : DB) (w : String) (h : DBInv db) :
    DBInv (ensure_user db w) := by
  unfold DBInv at *
  rw [ensure_user_messages, ensure_user_nextId]
  exact h

theorem DBInv_insert_message (db : DB) (w c : String) (fp : StoreFail)
    (h : DBInv db) : DBInv (insert_message db w c fp).1 := by
  have he := DBInv_ensure_user db w h
  cases fp
  · exact h
  · exact h
  · exact h
  · exact he
  · unfold DBInv at *
    simp only [insert_message]
    rcases he with ⟨hp, hb⟩
    exact ⟨hp, fun r hr => Nat.lt_succ_of_lt (hb r hr)⟩
  · unfold DBInv at *
    simp only [insert_message]
    rcases he with ⟨hp, hb⟩
    rw [ensure_user_messages, ensure_user_nextId] at *
    constructor
    · rw [List.pairwise_append]
      refine ⟨hp, by simp, ?_⟩
      intro a ha b hb'
      rcases List.mem_singleton.mp hb' with rfl
      exact hb a ha
    · intro r hr
      rcases List.mem_append.mp hr with hr' | hr'
      · exact Nat.lt_succ_of_lt (hb r hr')
      · rcases List.mem_singleton.mp hr' with rfl
        exact Nat.lt_succ_self _

theorem login_db_cases (db : DB) (sid : String) (w? : Option String) (f : Bool) :
    (login db sid w? f).1 = db ∨
      ∃ w, w? = some w ∧ (login db sid w? f).1 = ensure_user db w := by
  rcases w? with - | w
  · left; rfl
  · simp only [login]
    by_cases h1 : (w.length == 0 || !(validate_wallet w)) = true
    · rw [if_pos h1]; left; rfl
    · rw [if_neg h1]
      by_cases h2 : f = true
      · rw [if_pos h2]; left; rfl
      · rw [if_neg h2]; right; exact ⟨w, rfl, rfl⟩

theorem send_message_db_cases (db : DB) (sid : String) (w? c? : Option String)
    (fp : StoreFail) (t : Nat) :
    (send_message db sid w? c? fp t).1 = db ∨
      ∃ w c, w? = some w ∧ c? = some c ∧
        (send_message db sid w? c? fp t).1 = (insert_message db w c fp).1 := by
  rcases w? with - | w
  · left; rfl
  · rcases c? with - | c
    · simp only [send_message]
      by_cases h1 : (w.length == 0 || !(validate_wallet w)) = true
      · rw [if_pos h1]; left; rfl
      · rw [if_neg h1]; left; rfl
    · simp only [send_message]
      by_cases h1 : (w.length == 0 || !(validate_wallet w)) = true
      · rw [if_pos h1]; left; rfl
      · rw [if_neg h1]
        by_cases h2 : (c.length == 0 || (pyStrip c).length == 0) = true
        · rw [if_pos h2]; left; rfl
        · rw [if_neg h2]
          by_cases h3 : c.length > 1000
          · rw [if_pos h3]; left; rfl
          · rw [if_neg h3]
            right
            refine ⟨w, c, rfl, rfl, ?_⟩
            rcases hins : insert_message db w c fp with ⟨db2, mid⟩
            rcases mid with - | mid <;> simp [hins]

theorem DBInv_login (db : DB) (sid : String) (w? : Option String) (f : Bool)
    (h : DBInv db) : DBInv (login db sid w? f).1 := by
  rcases login_db_cases db sid w? f with heq | ⟨w, -, heq⟩
  · rw [heq]; exact h
  · rw [heq]; exact DBInv_ensure_user db w h

theorem DBInv_send_message (db : DB) (sid : String) (w? c? : Option String)
    (fp : StoreFail) (t : Nat) (h : DBInv db) :
    DBInv (send_message db sid w? c? fp t).1 := by
  rcases send_message_db_cases db sid w? c? fp t with heq | ⟨w, c, -, -, heq⟩
  · rw [heq]; exact h
  · rw [heq]; exact DBInv_insert_message db w c fp h

theorem Reachable_DBInv (db : DB) (h : Reachable db) : DBInv db := by
  induction h with
  | init => exact DBInv_db0
  | loginStep db sid w? f _ ih => exact DBInv_login db sid w? f ih
  | sendStep db sid w? c? fp t _ ih => exact DBInv_send_message db sid w? c? fp t ih

theorem Reachable_id_pairwise_ne (db : DB) (h : Reachable db) :
    db.messages.Pairwise (fun a b => a.id ≠ b.id) :=
  ((Reachable_DBInv db h).1).imp Nat.ne_of_lt

/-! Evaluation lemmas for the handler branches -/

theorem wallet_cond_false (w : String) (hw : validate_wallet w = true) :
    (w.length == 0 || !(validate_wallet w)) = false := by
  have h32 := validate_wallet_length w hw
  have h0 : (w.length == 0) = false := by simp; omega
  rw [h0, hw]
  rfl

theorem content_cond_false (c : String) (hne : (pyStrip c).length ≠ 0) :
    (c.length == 0 || (pyStrip c).length == 0) = false := by
  have h0 : (c.length == 0) = false := by
    rcases Nat.eq_zero_or_pos c.length with h | h
    · exfalso
      apply hne
      have hd : c.data = [] := List.length_eq_zero.mp h
      simp [pyStrip, String.toList, hd, String.length]
    · simp; omega
  have h1 : ((pyStrip c).length == 0) = false := by simp [hne]
  rw [h0, h1]
  rfl

theorem send_message_whitespace_eval (db : DB) (sid w c : String)
    (fp : StoreFail) (t : Nat) (hw : validate_wallet w = true)
    (hsp : ∀ ch ∈ c.toList, pyIsSpace ch = true) :
    send_message db sid (some w) (some c) fp t =
      (db, [errTo sid "Message cannot be empty"]) := by
  have hstrip : ((pyStrip c).length == 0) = true := by
    simp only [beq_iff_eq]
    exact (pyStrip_length_eq_zero_iff c).mpr hsp
  simp [send_message, wallet_cond_false w hw, hstrip]

theorem send_message_too_long_eval (db : DB) (sid w c : String)
    (fp : StoreFail) (t : Nat) (hw : validate_wallet w = true)
    (hne : (pyStrip c).length ≠ 0) (hlen : c.length > 1000) :
    send_message db sid (some w) (some c) fp t =
      (db, [errTo sid "Message too long"]) := by
  simp [send_message, wallet_cond_false w hw, content_cond_false c hne, hlen]

theorem send_message_valid_eval (db : DB) (sid w c : String)
    (fp : StoreFail) (t : Nat) (hw : validate_wallet w = true)
    (hne : (pyStrip c).length ≠ 0) (hlen : c.length ≤ 1000) :
    send_message db sid (some w) (some c) fp t =
      (match insert_message db w c fp with
       | (db2, none) => (db2, [errTo sid "Internal server error"])
       | (db2, some mid) =>
           (db2, [⟨"new_message", Payload.newMessage ⟨mid, w, c, t⟩, Target.allExcept sid⟩,
                  ⟨"new_message", Payload.newMessage ⟨mid, w, c, t⟩, Target.one sid⟩])) := by
  have hl : ¬ c.length > 1000 := by omega
  simp [send_message, wallet_cond_false w hw, content_cond_false c hne, hl]

theorem send_message_success_eval (db : DB) (sid w c : String) (t : Nat)
    (hw : validate_wallet w = true)
    (hne : (pyStrip c).length ≠ 0) (hlen : c.length ≤ 1000) :
    send_message db sid (some w) (some c) StoreFail.noFail t =
      ({ users := (ensure_user db w).users,
         messages := db.messages ++ [⟨db.nextId, w, c, db.clock⟩],
         nextId := db.nextId + 1,
         clock := db.clock + 1 },
       [⟨"new_message", Payload.newMessage ⟨db.nextId, w, c, t⟩, Target.allExcept sid⟩,
        ⟨"new_message", Payload.newMessage ⟨db.nextId, w, c, t⟩, Target.one sid⟩]) := by
  rw [send_message_valid_eval db sid w c StoreFail.noFail t hw hne hlen]
  simp [insert_message, ensure_user_messages, ensure_user_nextId, ensure_user_clock]

theorem string_mk_replicate_length (n : Nat) (ch : Char) :
    (String.mk (List.replicate n ch)).length = n := by
  show (List.replicate n ch).length = n
  simp

theorem mem_string_mk_replicate (n : Nat) (ch : Char) (h : n ≠ 0) :
    ch ∈ (String.mk (List.replicate n ch)).toList :=
  List.mem_replicate.mpr ⟨h, rfl⟩

theorem pyStrip_length_ne_zero (c : String) (hex : ∃ ch ∈ c.toList, pyIsSpace ch = false) :
    (pyStrip c).length ≠ 0 := by
  rw [Ne, pyStrip_length_eq_zero_iff]
  intro hall
  rcases hex with ⟨ch, hch, hf⟩
  rw [hall ch hch] at hf
  cases hf

/-! The claims -/

/-- Claim C6: the address validator returns false for every string that is empty,
of length outside [32, 44], or containing a character outside the
58-character base-58 alphabet, and true for every string of length in
[32, 44] all of whose characters are in that alphabet; the alphabet is
exactly the ASCII alphanumerics with `0`, `O`, `I` and `l` removed, 58
characters in all. -/
theorem C6_validator_characterisation :
    (∀ s : String, validate_wallet s = true ↔
        32 ≤ s.length ∧ s.length ≤ 44 ∧ ∀ c ∈ s.toList, c ∈ valid_chars) ∧
    valid_chars = asciiAlphanumeric.filter (fun c => !(['0', 'O', 'I', 'l'].contains c)) ∧
    valid_chars.length = 58 :=
  ⟨validate_wallet_iff, by decide, by decide⟩

/-- Claim C4: with a valid wallet, the content checks of `send_message` behave as
specified: content that is empty or all-whitespace is rejected with
"Message cannot be empty"; content that passes the emptiness check (it has a
non-whitespace character) and has raw length over 1000 is rejected with
"Message too long"; content of raw length exactly 1000 with a non-whitespace
character succeeds — the row is committed and `new_message` is emitted. -/
theorem C4_content_validation (db : DB) (sid w c : String) (fp : StoreFail)
    (t : Nat) (hw : validate_wallet w = true) :
    ((∀ ch ∈ c.toList, pyIsSpace ch = true) →
        send_message db sid (some w) (some c) fp t =
          (db, [errTo sid "Message cannot be empty"])) ∧
    ((∃ ch ∈ c.toList, pyIsSpace ch = false) → c.length > 1000 →
        send_message db sid (some w) (some c) fp t =
          (db, [errTo sid "Message too long"])) ∧
    ((∃ ch ∈ c.toList, pyIsSpace ch = false) → c.length = 1000 →
        send_message db sid (some w) (some c) StoreFail.noFail t =
          ({ users := (ensure_user db w).users,
             messages := db.messages ++ [⟨db.nextId, w, c, db.clock⟩],
             nextId := db.nextId + 1, clock := db.clock + 1 },
           [⟨"new_message", Payload.newMessage ⟨db.nextId, w, c, t⟩, Target.allExcept sid⟩,
            ⟨"new_message", Payload.newMessage ⟨db.nextId, w, c, t⟩, Target.one sid⟩])) :=
  ⟨fun hsp => send_message_whitespace_eval db sid w c fp t hw hsp,
   fun hex hlen =>
     send_message_too_long_eval db sid w c fp t hw (pyStrip_length_ne_zero c hex) hlen,
   fun hex hlen =>
     send_message_success_eval db sid w c t hw (pyStrip_length_ne_zero c hex) (by omega)⟩

/-- Witness for C4: the empty-ish, too-long and exactly-1000 cases at
concrete inputs. -/
theorem C4_content_validation_witness :
    send_message db0 "s1" (some w0) (some " ") StoreFail.noFail 0 =
      (db0, [errTo "s1" "Message cannot be empty"]) ∧
    send_message db0 "s1" (some w0) (some (String.mk (List.replicate 1001 'a')))
        StoreFail.noFail 0 =
      (db0, [errTo "s1" "Message too long"]) ∧
    (send_message db0 "s1" (some w0) (some (String.mk (List.replicate 1000 'a')))
        StoreFail.noFail 0).2 =
      [⟨"new_message",
        Payload.newMessage ⟨1, w0, String.mk (List.replicate 1000 'a'), 0⟩,
        Target.allExcept "s1"⟩,
       ⟨"new_message",
        Payload.newMessage ⟨1, w0, String.mk (List.replicate 1000 'a'), 0⟩,
        Target.one "s1"⟩] := by
  have hw : validate_wallet w0 = true := by decide
  refine ⟨(C4_content_validation db0 "s1" w0 " " StoreFail.noFail 0 hw).1 (by decide),
    (C4_content_validation db0 "s1" w0 (String.mk (List.replicate 1001 'a'))
        StoreFail.noFail 0 hw).2.1
      ⟨'a', mem_string_mk_replicate 1001 'a' (by decide), by decide⟩
      (by rw [string_mk_replicate_length]; decide), ?_⟩
  have h := (C4_content_validation db0 "s1" w0 (String.mk (List.replicate 1000 'a'))
      StoreFail.noFail 0 hw).2.2
    ⟨'a', mem_string_mk_replicate 1000 'a' (by decide), by decide⟩
    (string_mk_replicate_length 1000 'a')
  rw [h]
  rfl

/-- Claim C9: the emptiness check runs before the length check: content that is
whitespace-only, whatever its raw length (in particular over 1000), is
rejected with "Message cannot be empty", the store is left untouched, and
the only emission is that error to the caller. -/
theorem C9_empty_check_first (db : DB) (sid w c : String) (fp : StoreFail)
    (t : Nat) (hw : validate_wallet w = true)
    (hsp : ∀ ch ∈ c.toList, pyIsSpace ch = true) (_hlen : 1000 < c.length) :
    send_message db sid (some w) (some c) fp t =
      (db, [errTo sid "Message cannot be empty"]) :=
  send_message_whitespace_eval db sid w c fp t hw hsp

/-- Witness for C9: 1001 spaces. -/
theorem C9_empty_check_first_witness :
    send_message db0 "s1" (some w0) (some (String.mk (List.replicate 1001 ' ')))
        StoreFail.noFail 0 =
      (db0, [errTo "s1" "Message cannot be empty"]) :=
  C9_empty_check_first db0 "s1" w0 (String.mk (List.replicate 1001 ' '))
    StoreFail.noFail 0 (by decide)
    (fun ch hch => by rcases List.eq_of_mem_replicate hch with rfl; decide)
    (by rw [string_mk_replicate_length]; decide)

/-- Claim C10: a `fetch_messages` payload whose `limit` value cannot be coerced by
`int()` (a non-numeric string, `None`, ...) makes the handler emit only the
generic "Internal server error" event to the caller — no `messages` event,
no fallback to the default limit of 50. -/
theorem C10_uncoercible_limit (db : DB) (sid : String) (v : PyVal) (fail : Bool)
    (hv : pyInt v = Except.error ()) :
    fetch_messages db sid (FetchData.dictLimit v) fail =
      [errTo sid "Internal server error"] := by
  simp [fetch_messages, fetchLimit, hv, Except.map]

/-- Witness for C10: `limit: "abc"` and `limit: null`. -/
theorem C10_uncoercible_limit_witness :
    fetch_messages db0 "s1" (FetchData.dictLimit (PyVal.vStr "abc")) false =
      [errTo "s1" "Internal server error"] ∧
    fetch_messages db0 "s1" (FetchData.dictLimit PyVal.vNone) false =
      [errTo "s1" "Internal server error"] :=
  ⟨C10_uncoercible_limit db0 "s1" (PyVal.vStr "abc") false rfl,
   C10_uncoercible_limit db0 "s1" PyVal.vNone false rfl⟩

/-- Claim C2 counterexample: with an empty store, a StoreError at the message
insert — after the user-ensure commit — reports failure yet leaves the
durable store changed: the user row exists with no message row, so the
operation is not atomic as claimed. -/
theorem C2_insert_atomicity_counterexample :
    (insert_message db0 w0 "hi" StoreFail.msgFail).2 = none ∧
    (insert_message db0 w0 "hi" StoreFail.msgFail).1 ≠ db0 ∧
    (insert_message db0 w0 "hi" StoreFail.msgFail).1.users = [w0] ∧
    (insert_message db0 w0 "hi" StoreFail.msgFail).1.messages = [] := by
  decide

/-- Claim C2 amended: on failure no message row is ever visible, and a failure
before the first commit leaves the store unchanged; but a failure after the
user-ensure commit (at the message insert or its commit) leaves the ensured
user row durable without the message — the two commits are not one atomic
unit. -/
theorem C2_insert_atomicity_amended (db : DB) (w c : String) (fp : StoreFail)
    (h : fp ≠ StoreFail.noFail) :
    (insert_message db w c fp).2 = none ∧
    (insert_message db w c fp).1.messages = db.messages ∧
    ((fp = StoreFail.connectFail ∨ fp = StoreFail.usersFail ∨ fp = StoreFail.commit1Fail) →
        (insert_message db w c fp).1 = db) ∧
    ((fp = StoreFail.msgFail ∨ fp = StoreFail.commit2Fail) →
        (insert_message db w c fp).1.users = (ensure_user db w).users) := by
  cases fp
  · simp [insert_message]
  · simp [insert_message]
  · simp [insert_message]
  · simp [insert_message, ensure_user_messages]
  · simp [insert_message, ensure_user_messages]
  · exact absurd rfl h

/-- Witness for C2's amended theorem: a pre-commit failure leaves the empty
store unchanged, a post-commit failure leaves the ensured user row. -/
theorem C2_insert_atomicity_amended_witness :
    (insert_message db0 w0 "hi" StoreFail.commit1Fail).1 = db0 ∧
    (insert_message db0 w0 "hi" StoreFail.msgFail).1.users = (ensure_user db0 w0).users :=
  ⟨(C2_insert_atomicity_amended db0 w0 "hi" StoreFail.commit1Fail (by decide)).2.2.1
      (Or.inr (Or.inr rfl)),
   (C2_insert_atomicity_amended db0 w0 "hi" StoreFail.msgFail (by decide)).2.2.2
      (Or.inl rfl)⟩

theorem fetch_messages_ok (db : DB) (sid : String) (d : FetchData) (l : Int)
    (hd : fetchLimit d = Except.ok l) (hl : 0 ≤ l) :
    fetch_messages db sid d false =
      [⟨"messages", Payload.messages ((sortByCreatedDesc db.messages).take l.toNat),
        Target.one sid⟩] := by
  have hr : fetch_recent db l = Except.ok ((sortByCreatedDesc db.messages).take l.toNat) := by
    unfold fetch_recent
    rw [if_neg (by omega)]
  simp [fetch_messages, hd, hr]

theorem fetched_sorted (db : DB) (n : Nat) :
    ((sortByCreatedDesc db.messages).take n).Pairwise newestFirst :=
  (sorted_sortByCreatedDesc db.messages).sublist (List.take_sublist n _)

/-- Claim C5: `fetch_messages` with no payload (or a dict without `limit`) emits at
most 50 messages; an integer `limit` is capped to `min limit 100` and at most
that many messages are emitted; `limit: 0` yields the empty `messages` event,
not an error; and every emitted sequence is ordered newest-first by
`created_at`. -/
theorem C5_fetch_limit (db : DB) (sid : String) (l : Int) (hl : 0 ≤ l) :
    (∃ rows, fetch_messages db sid FetchData.noData false =
        [⟨"messages", Payload.messages rows, Target.one sid⟩] ∧
        rows.length ≤ 50 ∧ rows.Pairwise newestFirst) ∧
    (∃ rows, fetch_messages db sid FetchData.dictNoLimit false =
        [⟨"messages", Payload.messages rows, Target.one sid⟩] ∧
        rows.length ≤ 50 ∧ rows.Pairwise newestFirst) ∧
    fetchLimit (FetchData.dictLimit (PyVal.vInt l)) = Except.ok (min l 100) ∧
    (∃ rows, fetch_messages db sid (FetchData.dictLimit (PyVal.vInt l)) false =
        [⟨"messages", Payload.messages rows, Target.one sid⟩] ∧
        rows.length ≤ (min l 100).toNat ∧ rows.Pairwise newestFirst) ∧
    fetch_messages db sid (FetchData.dictLimit (PyVal.vInt 0)) false =
      [⟨"messages", Payload.messages [], Target.one sid⟩] := by
  refine ⟨⟨(sortByCreatedDesc db.messages).take 50,
      fetch_messages_ok db sid FetchData.noData 50 rfl (by norm_num), ?_, fetched_sorted db 50⟩,
    ⟨(sortByCreatedDesc db.messages).take 50,
      fetch_messages_ok db sid FetchData.dictNoLimit 50 rfl (by norm_num), ?_, fetched_sorted db 50⟩,
    rfl,
    ⟨(sortByCreatedDesc db.messages).take (min l 100).toNat,
      fetch_messages_ok db sid (FetchData.dictLimit (PyVal.vInt l)) (min l 100) rfl
        (le_min hl (by norm_num)), List.length_take_le _ _, fetched_sorted db _⟩,
    fetch_messages_ok db sid (FetchData.dictLimit (PyVal.vInt 0)) 0 rfl le_rfl⟩
  · exact List.length_take_le _ _
  · exact List.length_take_le _ _

/-- Witness for C5: `limit: 500` is capped to 100 and `limit: 0` returns the
empty sequence. -/
theorem C5_fetch_limit_witness :
    fetchLimit (FetchData.dictLimit (PyVal.vInt 500)) = Except.ok 100 ∧
    fetch_messages db0 "s1" (FetchData.dictLimit (PyVal.vInt 0)) false =
      [⟨"messages", Payload.messages [], Target.one "s1"⟩] := by
  have h := C5_fetch_limit db0 "s1" 500 (by norm_num)
  refine ⟨?_, h.2.2.2.2⟩
  rw [h.2.2.1]
  rfl

theorem login_boundary (db : DB) (sid : String) (w? : Option String) (f : Bool) :
    (login db sid w? f).2 ≠ [] ∧
    ∀ e ∈ (login db sid w? f).2, e.target = Target.one sid := by
  rcases w? with - | w
  · exact ⟨by simp [login, errTo], by simp [login, errTo]⟩
  · simp only [login]
    by_cases h1 : (w.length == 0 || !(validate_wallet w)) = true
    · rw [if_pos h1]
      exact ⟨by simp [errTo], by simp [errTo]⟩
    · rw [if_neg h1]
      by_cases h2 : f = true
      · rw [if_pos h2]
        exact ⟨by simp [errTo], by simp [errTo]⟩
      · rw [if_neg h2]
        exact ⟨by simp, by simp⟩

theorem fetch_boundary (db : DB) (sid : String) (d : FetchData) (fail : Bool) :
    fetch_messages db sid d fail ≠ [] ∧
    ∀ e ∈ fetch_messages db sid d fail, e.target = Target.one sid := by
  cases hd : fetchLimit d with
  | error u =>
      have he : fetch_messages db sid d fail = [errTo sid "Internal server error"] := by
        simp [fetch_messages, hd]
      rw [he]
      exact ⟨by simp, by simp [errTo]⟩
  | ok l =>
      by_cases hf : fail = true
      · have he : fetch_messages db sid d fail = [errTo sid "Internal server error"] := by
          simp [fetch_messages, hd, hf]
        rw [he]
        exact ⟨by simp, by simp [errTo]⟩
      · cases hr : fetch_recent db l with
        | error u =>
            have he : fetch_messages db sid d fail = [errTo sid "Internal server error"] := by
              simp [fetch_messages, hd, hf, hr]
            rw [he]
            exact ⟨by simp, by simp [errTo]⟩
        | ok rows =>
            have he : fetch_messages db sid d fail =
                [⟨"messages", Payload.messages rows, Target.one sid⟩] := by
              simp [fetch_messages, hd, hf, hr]
            rw [he]
            exact ⟨by simp, by simp⟩

theorem send_message_emits_cases (db : DB) (sid : String) (w? c? : Option String)
    (fp : StoreFail) (t : Nat) :
    (∃ msg, (send_message db sid w? c? fp t).2 = [errTo sid msg]) ∨
    (fp = StoreFail.noFail ∧ ∃ m,
      (send_message db sid w? c? fp t).2 =
        [⟨"new_message", Payload.newMessage m, Target.allExcept sid⟩,
         ⟨"new_message", Payload.newMessage m, Target.one sid⟩]) := by
  rcases w? with - | w
  · exact Or.inl ⟨"Invalid wallet address", rfl⟩
  · rcases c? with - | c
    · simp only [send_message]
      by_cases h1 : (w.length == 0 || !(validate_wallet w)) = true
      · rw [if_pos h1]; exact Or.inl ⟨"Invalid wallet address", rfl⟩
      · rw [if_neg h1]; exact Or.inl ⟨"Message cannot be empty", rfl⟩
    · simp only [send_message]
      by_cases h1 : (w.length == 0 || !(validate_wallet w)) = true
      · rw [if_pos h1]; exact Or.inl ⟨"Invalid wallet address", rfl⟩
      · rw [if_neg h1]
        by_cases h2 : (c.length == 0 || (pyStrip c).length == 0) = true
        · rw [if_pos h2]; exact Or.inl ⟨"Message cannot be empty", rfl⟩
        · rw [if_neg h2]
          by_cases h3 : c.length > 1000
          · rw [if_pos h3]; exact Or.inl ⟨"Message too long", rfl⟩
          · rw [if_neg h3]
            cases fp
            · exact Or.inl ⟨"Internal server error", rfl⟩
            · exact Or.inl ⟨"Internal server error", rfl⟩
            · exact Or.inl ⟨"Internal server error", rfl⟩
            · exact Or.inl ⟨"Internal server error", rfl⟩
            · exact Or.inl ⟨"Internal server error", rfl⟩
            · exact Or.inr ⟨rfl, ⟨(ensure_user db w).nextId, w, c, t⟩, rfl⟩

/-- Claim C7: each handler is a failure boundary: it is a total function, the
caller always gets at least one event back (its success event or an error
event), and whenever the store fails — `login` and `fetch_messages` emit
only to the caller in every case, `send_message` in every failing case — no
event reaches any other session. -/
theorem C7_failure_boundary :
    (∀ db sid w? f, (login db sid w? f).2 ≠ [] ∧
        ∀ e ∈ (login db sid w? f).2, e.target = Target.one sid) ∧
    (∀ db sid w? c? fp t,
        (∃ e ∈ (send_message db sid w? c? fp t).2, e.target = Target.one sid) ∧
        (fp ≠ StoreFail.noFail →
          ∀ e ∈ (send_message db sid w? c? fp t).2, e.target = Target.one sid)) ∧
    (∀ db sid d fail, fetch_messages db sid d fail ≠ [] ∧
        ∀ e ∈ fetch_messages db sid d fail, e.target = Target.one sid) := by
  refine ⟨login_boundary, ?_, fetch_boundary⟩
  intro db sid w? c? fp t
  rcases send_message_emits_cases db sid w? c? fp t with ⟨msg, hE⟩ | ⟨hfp, m, hE⟩
  · constructor
    · exact ⟨errTo sid msg, by rw [hE]; simp, rfl⟩
    · intro _ e he
      rw [hE] at he
      rcases List.mem_singleton.mp he with rfl
      rfl
  · constructor
    · refine ⟨⟨"new_message", Payload.newMessage m, Target.one sid⟩, ?_, rfl⟩
      rw [hE]; simp
    · intro hf
      exact absurd hfp hf

/-- Claim C8: a session that never logged in can still send: with a valid wallet
and valid content, `send_message` creates the user row if absent, commits the
message and emits `new_message`, and the session registry (including the
session's absent login record) is untouched — prior login is no
precondition. -/
theorem C8_send_without_login (srv : Server) (sid w c : String) (t : Nat)
    (_hsession : srv.sessions.lookup sid = some none)
    (hw : validate_wallet w = true)
    (hex : ∃ ch ∈ c.toList, pyIsSpace ch = false)
    (hlen : c.length ≤ 1000) :
    w ∈ (handle_send srv sid (some w) (some c) StoreFail.noFail t).1.db.users ∧
    (handle_send srv sid (some w) (some c) StoreFail.noFail t).1.db.messages =
      srv.db.messages ++ [⟨srv.db.nextId, w, c, srv.db.clock⟩] ∧
    (handle_send srv sid (some w) (some c) StoreFail.noFail t).2 =
      [⟨"new_message", Payload.newMessage ⟨srv.db.nextId, w, c, t⟩, Target.allExcept sid⟩,
       ⟨"new_message", Payload.newMessage ⟨srv.db.nextId, w, c, t⟩, Target.one sid⟩] ∧
    (handle_send srv sid (some w) (some c) StoreFail.noFail t).1.sessions = srv.sessions := by
  have hne := pyStrip_length_ne_zero c hex
  have h := send_message_success_eval srv.db sid w c t hw hne hlen
  unfold handle_send
  rw [h]
  exact ⟨ensure_user_users_mem srv.db w, rfl, rfl, rfl⟩

/-- Witness for C8: a connected session that never logged in sends
successfully. -/
theorem C8_send_without_login_witness :
    (Server.mk db0 [("s1", (none : Option String))]).sessions.lookup "s1" = some none ∧
    w0 ∈ (handle_send ⟨db0, [("s1", none)]⟩ "s1" (some w0) (some "hi")
        StoreFail.noFail 7).1.db.users ∧
    (handle_send ⟨db0, [("s1", none)]⟩ "s1" (some w0) (some "hi") StoreFail.noFail 7).2 =
      [⟨"new_message", Payload.newMessage ⟨1, w0, "hi", 7⟩, Target.allExcept "s1"⟩,
       ⟨"new_message", Payload.newMessage ⟨1, w0, "hi", 7⟩, Target.one "s1"⟩] := by
  have h := C8_send_without_login ⟨db0, [("s1", none)]⟩ "s1" w0 "hi" 7 (by decide)
    (by decide) ⟨'h', by decide, by decide⟩ (by decide)
  refine ⟨by decide, h.1, ?_⟩
  rw [h.2.2.1]
  rfl

/-- Claim C3: a successful `send_message` delivers one identical `new_message`
payload first to every currently connected session except the sender
(`skip_sid`), then, as a separate emission, to the sender; the payload's id
is the store's counter value, strictly greater than the id of every message
previously in the store. -/
theorem C3_broadcast_order_and_fresh_id (db : DB) (sid w c : String) (t : Nat)
    (registry : List String)
    (hreach : Reachable db) (hsid : sid ∈ registry)
    (hw : validate_wallet w = true)
    (hex : ∃ ch ∈ c.toList, pyIsSpace ch = false)
    (hlen : c.length ≤ 1000) :
    deliverAll registry (send_message db sid (some w) (some c) StoreFail.noFail t).2 =
      ((registry.filter (fun x => x ≠ sid)).map
        (fun x => (x, "new_message", Payload.newMessage ⟨db.nextId, w, c, t⟩))) ++
      [(sid, "new_message", Payload.newMessage ⟨db.nextId, w, c, t⟩)] ∧
    ∀ r ∈ db.messages, r.id < db.nextId := by
  have hne := pyStrip_length_ne_zero c hex
  have h := send_message_success_eval db sid w c t hw hne hlen
  constructor
  · rw [h]
    have hc : registry.contains sid = true := by simp [hsid]
    simp [deliverAll, deliver, hc, hsid]
  · exact (Reachable_DBInv db hreach).2

/-- Witness for C3 with two connected sessions. -/
theorem C3_broadcast_order_and_fresh_id_witness :
    deliverAll ["s1", "s2"] (send_message db0 "s1" (some w0) (some "hi")
        StoreFail.noFail 3).2 =
      [("s2", "new_message", Payload.newMessage ⟨1, w0, "hi", 3⟩),
       ("s1", "new_message", Payload.newMessage ⟨1, w0, "hi", 3⟩)] := by
  have h := C3_broadcast_order_and_fresh_id db0 "s1" w0 "hi" 3 ["s1", "s2"]
    Reachable.init (by decide) (by decide) ⟨'h', by decide, by decide⟩ (by decide)
  rw [h.1]
  rfl

/-- Claim C1 counterexample: sending "hi" when the wall clock reads 5 broadcasts a
payload with `created_at` 5, while the store stamped the committed row with
its own clock reading 0; a subsequent fetch returns `created_at` 0, so the
fetched record does not match the broadcast payload field for field. -/
theorem C1_roundtrip_counterexample :
    (send_message db0 "s1" (some w0) (some "hi") StoreFail.noFail 5).2 =
      [⟨"new_message", Payload.newMessage ⟨1, w0, "hi", 5⟩, Target.allExcept "s1"⟩,
       ⟨"new_message", Payload.newMessage ⟨1, w0, "hi", 5⟩, Target.one "s1"⟩] ∧
    fetch_messages (send_message db0 "s1" (some w0) (some "hi") StoreFail.noFail 5).1
        "s2" FetchData.noData false =
      [⟨"messages", Payload.messages [⟨1, w0, "hi", 0⟩], Target.one "s2"⟩] ∧
    (5 : Nat) ≠ 0 := by
  decide

/-- Claim C1 amended: a fetched record with the id of a sent message agrees with
the broadcast payload on id, sender and content, and its `created_at` is the
store-assigned insert timestamp (`db.clock`) — the broadcast payload instead
carries the wall-clock reading `t` taken at emit time, so the two
`created_at` values need not coincide. -/
theorem C1_roundtrip_amended (db : DB) (sid w c : String) (t : Nat)
    (db2 : DB) (lim : Int) (rows : List Row) (q : Row)
    (hw : validate_wallet w = true)
    (hex : ∃ ch ∈ c.toList, pyIsSpace ch = false)
    (hlen : c.length ≤ 1000)
    (hreach : Reachable db2)
    (hmem : (⟨db.nextId, w, c, db.clock⟩ : Row) ∈ db2.messages)
    (hf : fetch_recent db2 lim = Except.ok rows)
    (hq : q ∈ rows) (hid : q.id = db.nextId) :
    (send_message db sid (some w) (some c) StoreFail.noFail t).2 =
      [⟨"new_message", Payload.newMessage ⟨db.nextId, w, c, t⟩, Target.allExcept sid⟩,
       ⟨"new_message", Payload.newMessage ⟨db.nextId, w, c, t⟩, Target.one sid⟩] ∧
    (⟨db.nextId, w, c, db.clock⟩ : Row) ∈
      (send_message db sid (some w) (some c) StoreFail.noFail t).1.messages ∧
    q = ⟨db.nextId, w, c, db.clock⟩ := by
  have hne := pyStrip_length_ne_zero c hex
  have h := send_message_success_eval db sid w c t hw hne hlen
  refine ⟨by rw [h], by rw [h]; simp, ?_⟩
  have hrows : rows = (sortByCreatedDesc db2.messages).take lim.toNat := by
    unfold fetch_recent at hf
    by_cases hl : lim < 0
    · rw [if_pos hl] at hf; cases hf
    · rw [if_neg hl] at hf
      exact (Except.ok.inj hf).symm
  have hq2 : q ∈ db2.messages := by
    rw [hrows] at hq
    exact (mem_sortByCreatedDesc q db2.messages).mp (List.mem_of_mem_take hq)
  exact eq_of_mem_pairwise_id db2.messages ⟨db.nextId, w, c, db.clock⟩ q
    (Reachable_id_pairwise_ne db2 hreach) hmem hq2 hid

/-- Witness for C1's amended theorem: the fetched row after one send. -/
theorem C1_roundtrip_amended_witness :
    (send_message db0 "s1" (some w0) (some "hi") StoreFail.noFail 5).2 =
      [⟨"new_message", Payload.newMessage ⟨db0.nextId, w0, "hi", 5⟩, Target.allExcept "s1"⟩,
       ⟨"new_message", Payload.newMessage ⟨db0.nextId, w0, "hi", 5⟩, Target.one "s1"⟩] ∧
    (⟨db0.nextId, w0, "hi", db0.clock⟩ : Row) ∈
      (send_message db0 "s1" (some w0) (some "hi") StoreFail.noFail 5).1.messages ∧
    (⟨1, w0, "hi", 0⟩ : Row) = ⟨db0.nextId, w0, "hi", db0.clock⟩ :=
  C1_roundtrip_amended db0 "s1" w0 "hi" 5
    (send_message db0 "s1" (some w0) (some "hi") StoreFail.noFail 5).1 50
    [⟨1, w0, "hi", 0⟩] ⟨1, w0, "hi", 0⟩
    (by decide) ⟨'h', by decide, by decide⟩ (by decide)
    (Reachable.sendStep db0 "s1" (some w0) (some "hi") StoreFail.noFail 5 Reachable.init)
    (by decide) rfl (by decide) rfl

end Chat2
